import Mathlib

/-!
Shallow embedding of the Aitrader short-selling bot's core:
the scoring function (src/stock_analyzer.py), the position lifecycle
manager (src/trading_engine.py, with persistence field coercions from
src/db_manager.py), and the scheduler tick's trading logic
(src/app.py, module-level block).

Numeric values are embedded as `ℚ` (Python floats / pandas values),
quantities as `ℤ` (Python ints).  Pandas `NaN` results (indicators on
too-short series) are embedded as `Option ℚ = none`; comparisons with
`NaN` are `False` in pandas and are embedded accordingly.  Fallible
operations return `Except String _`, the error being the raised Python
exception.  External collaborators (market data, brokerage) are
parameters of the embedded functions.
-/

/-- Python `int(q)` on a float: truncation toward zero.  Lean's `Int`
division also truncates toward zero, so this is `q.num / q.den`. -/
def pyInt (q : ℚ) : ℤ := q.num / (q.den : ℤ)

/-! ## Indicator / scoring engine (src/stock_analyzer.py) -/

/-- One OHLCV bar.  `get_shorting_score` only reads the `Close` and
`Volume` columns (the other indicators computed by
`_calculate_indicators` — Bollinger bands, MACD, ATR — are never read
by the score), so only those two fields are embedded. -/
structure Bar where
  close : ℚ
  volume : ℚ
deriving DecidableEq

/-- The last `n` elements of a list (pandas `series[-n:]`). -/
def lastN (n : ℕ) (xs : List ℚ) : List ℚ := xs.drop (xs.length - n)

/-- `Close` column of a bar list. -/
def closesOf (bars : List Bar) : List ℚ := bars.map Bar.close

/-- `Volume` column of a bar list. -/
def volumesOf (bars : List Bar) : List ℚ := bars.map Bar.volume

/-- Embedding of `series.iloc[-1]` on a nonempty series (0 is never reached on the
nonempty lists this is applied to). -/
def latestOf (xs : List ℚ) : ℚ := xs.getLast?.getD 0

/-- Latest value of `series.rolling(window=w).mean()`:
the mean of the last `w` values, `NaN` (none) when fewer than `w`
observations exist (stock_analyzer.py lines 105-106). -/
def smaLatest (w : ℕ) (xs : List ℚ) : Option ℚ :=
  if xs.length < w then none
  else some ((lastN w xs).sum / (w : ℚ))

/-- Embedding of `series.diff()` without its leading `NaN`: consecutive differences
`x[i] - x[i-1]` (stock_analyzer.py line 109). -/
def diffs (xs : List ℚ) : List ℚ := List.zipWith (fun a b => a - b) xs.tail xs

/-- Embedding of `delta.where(delta > 0, 0)`: the leading `NaN` of `diff()` fails the
`> 0` test and is replaced by `0`, so the gain series is `0` followed by
the clipped differences (stock_analyzer.py line 110). -/
def gainSeries (xs : List ℚ) : List ℚ := 0 :: (diffs xs).map (fun d => max d 0)

/-- Embedding of `-delta.where(delta < 0, 0)` (stock_analyzer.py line 111). -/
def lossSeries (xs : List ℚ) : List ℚ := 0 :: (diffs xs).map (fun d => max (-d) 0)

/-- Latest value of the 14-period RSI (stock_analyzer.py lines 109-117).
`none` embeds pandas `NaN`: fewer than 14 observations in the rolling
windows, or the `0/0` case of `avg_gain / avg_loss`.  When only
`avg_loss` is zero, pandas produces `rs = +inf` and `RSI = 100`. -/
def rsiLatest (xs : List ℚ) : Option ℚ :=
  if xs.length < 14 then none
  else
    let avgGain := (lastN 14 (gainSeries xs)).sum / 14
    let avgLoss := (lastN 14 (lossSeries xs)).sum / 14
    if avgLoss = 0 then
      if avgGain = 0 then none
      else some 100
    else some (100 - 100 / (1 + avgGain / avgLoss))

/-- Embedding of `series.pct_change()` without its leading `NaN`:
`x[i]/x[i-1] - 1` (division by a zero price, which pandas turns into
`inf`, does not occur on the inputs considered here). -/
def pctChanges (xs : List ℚ) : List ℚ :=
  List.zipWith (fun a b => a / b - 1) xs.tail xs

/-- Squared deviations from the mean. -/
def sqDevs (xs : List ℚ) : List ℚ :=
  xs.map (fun r => (r - xs.sum / (xs.length : ℚ)) ^ 2)

/-- The volatility test `Close[-5:].pct_change().std() * 100 > 3`
(stock_analyzer.py lines 60-61), stated on the sample variance
(`ddof=1`, `NaN` skipped): for a nonnegative standard deviation,
`std * 100 > 3` iff `var > (3/100)^2`. -/
def volatilityHigh (closes : List ℚ) : Prop :=
  let rs := pctChanges (lastN 5 closes)
  (sqDevs rs).sum / ((rs.length : ℚ) - 1) > 9 / 10000

instance (closes : List ℚ) : Decidable (volatilityHigh closes) := by
  unfold volatilityHigh; infer_instance

/-- Embedding of the `Volume[-5:].mean()` vs `1.5 *` latest volume test
(stock_analyzer.py lines 66-70). -/
def volumeSpike (volumes : List ℚ) : Prop :=
  latestOf volumes > (lastN 5 volumes).sum / 5 * (3 / 2)

instance (volumes : List ℚ) : Decidable (volumeSpike volumes) := by
  unfold volumeSpike; infer_instance

/-- Embedding of the `Close[-3:].pct_change().dropna()` mean `> 0.01` test
(stock_analyzer.py lines 75-78). -/
def recentGain (closes : List ℚ) : Prop :=
  let rs := pctChanges (lastN 3 closes)
  rs.length > 0 ∧ rs.sum / (rs.length : ℚ) > 1 / 100

instance (closes : List ℚ) : Decidable (recentGain closes) := by
  unfold recentGain; infer_instance

/-- A pandas comparison whose operands may be `NaN`: `False` when either
side is `NaN` (none). -/
def optLT (a b : Option ℚ) : Prop :=
  match a, b with
  | some x, some y => x < y
  | _, _ => False

instance (a b : Option ℚ) : Decidable (optLT a b) := by
  unfold optLT; cases a <;> cases b <;> infer_instance

/-- RSI momentum adjustment (stock_analyzer.py lines 47-56): `NaN` RSI
fails every comparison, adjustment 0. -/
def rsiAdjustment (r : Option ℚ) : ℤ :=
  match r with
  | none => 0
  | some rsi => if rsi > 70 then 15 else if rsi > 60 then 10 else if rsi < 30 then -15 else 0

/-- Embedding of `StockAnalyzer.get_shorting_score` (stock_analyzer.py lines 24-89).
Empty data returns 0; otherwise 50 plus the trend, momentum,
volatility, volume and reversion adjustments, clamped to `[0, 100]`.
The indicator columns are always present (`_calculate_indicators`
cannot fail on numeric bars), so the `in columns` guards always pass;
the `len >= k` guards are embedded explicitly.  The exception handler
returning 0 has no reachable counterpart on total rational data. -/
def get_shorting_score (bars : List Bar) : ℤ :=
  if bars = [] then 0
  else
    let closes := closesOf bars
    let volumes := volumesOf bars
    let n := bars.length
    let score : ℤ := 50
      + (if optLT (some (latestOf closes)) (smaLatest 20 closes) then 10 else 0)
      + (if optLT (smaLatest 20 closes) (smaLatest 50 closes) then 15 else 0)
      + rsiAdjustment (rsiLatest closes)
      + (if 5 ≤ n ∧ volatilityHigh closes then 5 else 0)
      + (if 5 ≤ n ∧ volumeSpike volumes then 5 else 0)
      + (if 3 ≤ n ∧ recentGain closes then 10 else 0)
    max 0 (min 100 score)

/-! ## Position lifecycle manager (src/trading_engine.py) -/

/-- The single open position, as persisted by
`DatabaseManager.set_current_position` (db_manager.py lines 385-425)
and mirrored in session state (trading_engine.py lines 101-110). -/
structure Position where
  symbol : String
  entry_price : ℚ
  quantity : ℤ
  position_size : ℚ
  order_id : Option ℕ
  real_trade : Bool
deriving DecidableEq

/-- One row of the append-only trading history
(`TradingEngine._log_transaction`, trading_engine.py lines 221-258).
The `pnl` column is a nullable Float (db_manager.py line 48, the
coercion at line 266 preserves `None`), so its embedded type is
`Option ℚ`. -/
structure Transaction where
  stock : String
  action : String
  price : ℚ
  quantity : ℤ
  pnl : Option ℚ
  reason : String
deriving DecidableEq

/-- Engine-visible mutable state: the single current position
(database row and session mirror are written in lockstep), the account
balance, and the transaction history. -/
structure EngineState where
  currentPosition : Option Position
  balance : ℚ
  history : List Transaction
deriving DecidableEq

/-- A brokerage order dict: `status`, optional `filled_avg_price`
(read with `.get('filled_avg_price', default)`), optional `id`. -/
structure Order where
  status : String
  filled_avg_price : Option ℚ
  id : Option ℕ
deriving DecidableEq

/-- Outcome of one brokerage call (`open_short_position` /
`close_short_position`): either a raised exception, or a returned
order dict (possibly `None`). -/
inductive BrokerCall where
  | exn : BrokerCall
  | ret : Option Order → BrokerCall
deriving DecidableEq

/-- The pending statuses polled before falling back
(trading_engine.py lines 77 and 165). -/
def isPendingStatus (s : String) : Bool :=
  s = "new" || s = "accepted" || s = "pending_new"

/-- Embedding of `TradingEngine.open_position` (trading_engine.py lines 43-130).
Parameters: whether real trading is enabled with a live service,
the outcome of the brokerage open call, and what
`wait_for_order_fill` would return (an order dict or `None` on
timeout).  Returns the new state and the created position, or the
raised error. -/
def open_position (realTradingEnabled : Bool) (broker : BrokerCall)
    (waitFill : Option Order) (symbol : String)
    (position_size current_price : ℚ) (s : EngineState) :
    Except String (EngineState × Position) :=
  let quantity : ℤ := pyInt (position_size / current_price)
  if quantity ≤ 0 then
    Except.error "Position size too small to open a position"
  else
    let orderAndPrice : Option Order × ℚ :=
      if realTradingEnabled then
        match broker with
        | BrokerCall.exn => (none, current_price)
        | BrokerCall.ret none => (none, current_price)
        | BrokerCall.ret (some ord) =>
          if ord.status = "filled" then
            (some ord, ord.filled_avg_price.getD current_price)
          else if isPendingStatus ord.status then
            match waitFill with
            | some f =>
              if f.status = "filled" then
                (some ord, f.filled_avg_price.getD current_price)
              else (some ord, current_price)
            | none => (some ord, current_price)
          else (some ord, current_price)
      else (none, current_price)
    let order_info := orderAndPrice.1
    let fillPrice := orderAndPrice.2
    let isReal := realTradingEnabled && order_info.isSome
    let position : Position :=
      { symbol := symbol
        entry_price := fillPrice
        quantity := quantity
        position_size := position_size
        order_id := order_info.bind Order.id
        real_trade := isReal }
    let tx : Transaction :=
      { stock := symbol
        action := "Short Open"
        price := fillPrice
        quantity := quantity
        pnl := some 0
        reason := "New position" ++ (if isReal then " (REAL)" else " (SIM)") }
    Except.ok
      ({ currentPosition := some position
         balance := s.balance
         history := s.history ++ [tx] }, position)

/-- Embedding of `TradingEngine.close_position` (trading_engine.py lines 132-219).
`fetchedPrice` is what the market-data collaborator
(`data_service.get_latest_stock_data(symbol)['last_price']`) would
return.  On the real paths where the price variable is still Python
`None` when the P/L arithmetic runs, the raised `TypeError` is the
returned error.  Returns the new state and the realized P/L. -/
def close_position (realTradingEnabled : Bool) (broker : BrokerCall)
    (waitFill : Option Order) (fetchedPrice : ℚ) (position : Position)
    (reason : String) (currentPriceArg : Option ℚ) (s : EngineState) :
    Except String (EngineState × ℚ) :=
  let entry_price := position.entry_price
  let quantity := position.quantity
  let is_real_trade := position.real_trade
  let orderAndPrice : Option Order × Option ℚ :=
    if realTradingEnabled && is_real_trade then
      match broker with
      | BrokerCall.exn =>
        -- except branch: fetch only when current_price is None (lines 176-180)
        (none, some (currentPriceArg.getD fetchedPrice))
      | BrokerCall.ret none => (none, currentPriceArg)
      | BrokerCall.ret (some ord) =>
        if ord.status = "filled" then
          (some ord, match ord.filled_avg_price with
            | some p => some p
            | none => currentPriceArg)
        else if isPendingStatus ord.status then
          match waitFill with
          | some f =>
            if f.status = "filled" then
              (some ord, match f.filled_avg_price with
                | some p => some p
                | none => currentPriceArg)
            else (some ord, currentPriceArg)
          | none => (some ord, currentPriceArg)
        else (some ord, currentPriceArg)
    else
      -- simulated branch: fetch when not provided (lines 181-184)
      (none, some (currentPriceArg.getD fetchedPrice))
  let order_info := orderAndPrice.1
  match orderAndPrice.2 with
  | none => Except.error "TypeError: unsupported operand type for None"
  | some current_price =>
    let pnl := (entry_price - current_price) * (quantity : ℚ)
    let tx : Transaction :=
      { stock := position.symbol
        action := "Short Close"
        price := current_price
        quantity := quantity
        pnl := some pnl
        reason := reason ++ (if is_real_trade && order_info.isSome then " (REAL)" else " (SIM)") }
    Except.ok
      ({ currentPosition := none
         balance := s.balance + pnl
         history := s.history ++ [tx] }, pnl)

/-! ## Cycle scheduler tick (src/app.py, hidden trading logic block) -/

/-- One watchlist entry as read by the tick (app.py `stock_list`). -/
structure StockEntry where
  symbol : String
  last_price : ℚ
deriving DecidableEq

/-- The analyzer report consumed by the tick
(`analyzer.get_recommendation`, read fields `recommendation` and
`score`, app.py line 1331). -/
structure Reco where
  recommendation : String
  score : ℤ
deriving DecidableEq

/-- The open-position part of an in-hours tick (app.py lines
1285-1311): take-profit check, stop-loss check (a second independent
`if`), then the `elif` cycle-rotation check, which re-reads the session
position that `close_position` clears.  Returned: the list of reasons
with which `close_position` is invoked this tick, in order. -/
def positionTickCloses (position : Position) (current_price : ℚ)
    (take_profit_pct stop_loss_pct : ℚ)
    (time_since_cycle cycle_interval : ℚ) : List String :=
  let entry_price := position.entry_price
  let take_profit_target := entry_price * (1 - take_profit_pct / 100)
  let tpFired : Bool := current_price ≤ take_profit_target
  -- a take-profit close clears the session position and forces the next cycle
  let sessionPosAfterTP : Option Position := if tpFired then none else some position
  let tscAfterTP := if tpFired then cycle_interval else time_since_cycle
  let stop_loss_target := entry_price * (1 + stop_loss_pct / 100)
  let slFired : Bool := stop_loss_target ≤ current_price
  let rotFired : Bool :=
    !slFired && decide (cycle_interval ≤ tscAfterTP) && sessionPosAfterTP.isSome
  (if tpFired then ["Take profit"] else [])
    ++ (if slFired then ["Stop loss"] else [])
    ++ (if rotFired then ["End of cycle rotation"] else [])

/-- The candidate scan of the no-position branch (app.py lines
1317-1336): starting from `best_stock = None, best_score = 0`, keep a
candidate whose recommendation is SHORT or STRONG SHORT and whose
score is strictly greater than the best so far; a per-symbol analyzer
failure (`recos` returning none) is logged and skipped. -/
def selectBestStock (recos : String → Option Reco) (stocks : List StockEntry) :
    Option StockEntry × ℤ :=
  stocks.foldl
    (fun best stock =>
      match recos stock.symbol with
      | none => best
      | some r =>
        if (r.recommendation = "SHORT" ∨ r.recommendation = "STRONG SHORT")
            ∧ best.2 < r.score
        then (some stock, r.score) else best)
    (none, 0)

/-- The no-open-position branch of an in-hours tick (app.py lines
1313-1356).  The branch guard is embedded exactly as written:
`(time_since_cycle >= cycle_interval or not current_position) and
stock_list`.  When a best candidate scores at least 60, a position of
size `balance * position_size_pct / 100` is opened at the candidate's
latest price; an `open_position` error is caught (line 1354) leaving
the state unchanged.  (The `last_cycle` reset performed on entering the
branch is not part of the returned state.) -/
def flatTick (realTradingEnabled : Bool) (broker : BrokerCall)
    (waitFill : Option Order) (recos : String → Option Reco)
    (latestPrice : String → ℚ) (position_size_pct : ℚ)
    (time_since_cycle cycle_interval : ℚ)
    (stocks : List StockEntry) (s : EngineState) : EngineState :=
  if (cycle_interval ≤ time_since_cycle ∨ s.currentPosition = none) ∧ stocks ≠ [] then
    match selectBestStock recos stocks with
    | (some best, best_score) =>
      if 60 ≤ best_score then
        let current_price := latestPrice best.symbol
        let position_size := s.balance * (position_size_pct / 100)
        match open_position realTradingEnabled broker waitFill
            best.symbol position_size current_price s with
        | Except.ok res => res.1
        | Except.error _ => s
      else s
    | (none, _) => s
  else s

/-! ## Claim-level predicates and concrete inputs -/

/-- A brokerage open call that failed: a raised exception, a returned
order in a terminal non-fill status (rejected / canceled / expired),
or a pending order whose fill wait timed out or ended unfilled. -/
def brokerFailure (bk : BrokerCall) (wf : Option Order) : Prop :=
  bk = BrokerCall.exn
  ∨ (∃ ord, bk = BrokerCall.ret (some ord) ∧ ord.status ≠ "filled"
      ∧ isPendingStatus ord.status = false)
  ∨ (∃ ord, bk = BrokerCall.ret (some ord) ∧ isPendingStatus ord.status = true
      ∧ ∀ f, wf = some f → f.status ≠ "filled")

/-- The premise of the spec's property 8.1, as stated there: the latest
Close is below both the 20-period and the 50-period SMA and the
14-period RSI exceeds 70. -/
def specC8Premise (bars : List Bar) : Prop :=
  ∃ s20 s50 r,
    smaLatest 20 (closesOf bars) = some s20
    ∧ smaLatest 50 (closesOf bars) = some s50
    ∧ rsiLatest (closesOf bars) = some r
    ∧ latestOf (closesOf bars) < s20
    ∧ latestOf (closesOf bars) < s50
    ∧ 70 < r

/-- A flat engine state with an empty history. -/
def emptyState : EngineState :=
  { currentPosition := none, balance := 0, history := [] }

/-- A simulated short position: 20 shares entered at 50. -/
def posEntry50 : Position :=
  { symbol := "XYZ", entry_price := 50, quantity := 20, position_size := 1000
    order_id := none, real_trade := false }

/-- A state holding `posEntry50` with balance 10000. -/
def stateWithPos : EngineState :=
  { currentPosition := some posEntry50, balance := 10000, history := [] }

/-- A real-trade short position: 20 shares entered at 50, backed by
brokerage order 7. -/
def realPosEntry50 : Position :=
  { symbol := "BHP", entry_price := 50, quantity := 20, position_size := 1000
    order_id := some 7, real_trade := true }

/-- A state holding `realPosEntry50` with balance 10000. -/
def stateWithRealPos : EngineState :=
  { currentPosition := some realPosEntry50, balance := 10000, history := [] }

/-- An analyzer oracle for the scheduler-tick example: the single
watchlist symbol scores 65 with recommendation SHORT. -/
def recosShort65 : String → Option Reco :=
  fun sym => if sym = "AAA" then some { recommendation := "SHORT", score := 65 } else none

/-- A market-data oracle for the scheduler-tick example: every symbol
quotes at 10. -/
def priceAlways10 : String → ℚ := fun _ => 10

/-- A flat state with balance 10000 for the scheduler-tick example. -/
def flatState10000 : EngineState :=
  { currentPosition := none, balance := 10000, history := [] }

/-! ## Claim theorems -/

/-- Claim C1: closing a SHORT position with known entry price, quantity
and close price realizes P/L = (entry_price − close_price) × quantity,
adds exactly that P/L to the account balance, appends one Close
transaction carrying that P/L and the given reason (tagged with the
simulated-fill marker), clears the stored position, and moves the
state machine from SHORT (the position held in the state) to FLAT
(no position held). -/
theorem claim_C1_close_short
    (re : Bool) (bk : BrokerCall) (wf : Option Order) (fetch : ℚ)
    (position : Position) (reason : String) (p : ℚ) (s : EngineState)
    (hsim : position.real_trade = false)
    (hshort : s.currentPosition = some position) :
    close_position re bk wf fetch position reason (some p) s =
      Except.ok
        ({ currentPosition := none
           balance := s.balance + (position.entry_price - p) * (position.quantity : ℚ)
           history := s.history ++
             [{ stock := position.symbol, action := "Short Close", price := p
                quantity := position.quantity
                pnl := some ((position.entry_price - p) * (position.quantity : ℚ))
                reason := reason ++ " (SIM)" }] },
         (position.entry_price - p) * (position.quantity : ℚ)) := by
  simp [close_position, hsim]

/-- Witness for C1 at the spec's example: entry 50, quantity 20, close
price 45 yield P/L 100, balance 10000 → 10100, one Close transaction
with P/L 100, position cleared. -/
theorem claim_C1_close_short_witness :
    close_position false BrokerCall.exn none 0 posEntry50 "Take profit" (some 45)
        stateWithPos =
      Except.ok
        ({ currentPosition := none, balance := 10100
           history := [{ stock := "XYZ", action := "Short Close", price := 45
                         quantity := 20, pnl := some 100
                         reason := "Take profit (SIM)" }] }, 100) := by
  have h := claim_C1_close_short false BrokerCall.exn none 0 posEntry50 "Take profit"
    45 stateWithPos rfl rfl
  rw [h]
  norm_num [posEntry50, stateWithPos]
  rfl

/-- Claim C4: whenever the computed quantity `int(position_size /
current_price)` is not positive, opening fails with the invalid-size
error; no state is touched (the caller keeps its state unchanged on the
error result). -/
theorem claim_C4_invalid_size
    (re : Bool) (bk : BrokerCall) (wf : Option Order) (symbol : String)
    (target price : ℚ) (s : EngineState)
    (h : pyInt (target / price) ≤ 0) :
    open_position re bk wf symbol target price s =
      Except.error "Position size too small to open a position" := by
  simp only [open_position]
  rw [if_pos h]

/-- Witness for C4: current price 50 exceeds target size 30, the
quantity computes to 0, and opening fails. -/
theorem claim_C4_invalid_size_witness :
    pyInt ((30 : ℚ) / 50) ≤ 0 ∧
    open_position false BrokerCall.exn none "XYZ" 30 50 emptyState =
      Except.error "Position size too small to open a position" := by
  refine ⟨by norm_num [pyInt], ?_⟩
  exact claim_C4_invalid_size false BrokerCall.exn none "XYZ" 30 50 emptyState
    (by norm_num [pyInt])

/-- Counterexample to claim C3 as stated: opening with target size 1000
at current price 30 records quantity 33 and position_size 1000, but
entry_price × quantity = 990 ≠ 1000, so the recorded position does not
satisfy position_size = entry_price × quantity. -/
theorem claim_C3_counterexample :
    open_position false BrokerCall.exn none "AAA" 1000 30 emptyState =
      Except.ok
        ({ currentPosition := some
             { symbol := "AAA", entry_price := 30, quantity := 33
               position_size := 1000, order_id := none, real_trade := false }
           balance := 0
           history := [{ stock := "AAA", action := "Short Open", price := 30
                         quantity := 33, pnl := some 0
                         reason := "New position (SIM)" }] },
         { symbol := "AAA", entry_price := 30, quantity := 33
           position_size := 1000, order_id := none, real_trade := false })
    ∧ (1000 : ℚ) ≠ 30 * 33 := by
  constructor
  · norm_num [open_position, pyInt, emptyState]
    rfl
  · norm_num

/-- Claim C3 as amended: a successful simulated open records
position_size equal to the requested target size and quantity
= int(target / price); the identity position_size = entry_price ×
quantity therefore holds exactly when the target is an integer
multiple of the price (as in the spec's 1000-at-50 example), not in
general. -/
theorem claim_C3_amended
    (bk : BrokerCall) (wf : Option Order) (symbol : String)
    (target price : ℚ) (s s' : EngineState) (pos : Position)
    (h : open_position false bk wf symbol target price s = Except.ok (s', pos)) :
    pos.position_size = target ∧ pos.entry_price = price ∧
    pos.quantity = pyInt (target / price) ∧
    (price * (pyInt (target / price) : ℚ) = target →
      pos.position_size = pos.entry_price * (pos.quantity : ℚ)) := by
  simp only [open_position] at h
  split at h
  · exact absurd h (by simp)
  · rw [Except.ok.injEq, Prod.mk.injEq] at h
    obtain ⟨-, hpos⟩ := h
    subst hpos
    refine ⟨rfl, rfl, rfl, ?_⟩
    intro hexact
    simpa using hexact.symm

/-- Witness for C3 as amended, at the spec's example: target 1000 at
price 50 records quantity 20, position_size 1000 = 50 × 20 =
entry_price × quantity. -/
theorem claim_C3_amended_witness :
    open_position false BrokerCall.exn none "AAA" 1000 50 emptyState =
      Except.ok
        ({ currentPosition := some
             { symbol := "AAA", entry_price := 50, quantity := 20
               position_size := 1000, order_id := none, real_trade := false }
           balance := 0
           history := [{ stock := "AAA", action := "Short Open", price := 50
                         quantity := 20, pnl := some 0
                         reason := "New position (SIM)" }] },
         { symbol := "AAA", entry_price := 50, quantity := 20
           position_size := 1000, order_id := none, real_trade := false })
    ∧ (1000 : ℚ) = 50 * (20 : ℤ) := by
  have hopen : open_position false BrokerCall.exn none "AAA" 1000 50 emptyState =
      Except.ok
        ({ currentPosition := some
             { symbol := "AAA", entry_price := 50, quantity := 20
               position_size := 1000, order_id := none, real_trade := false }
           balance := 0
           history := [{ stock := "AAA", action := "Short Open", price := 50
                         quantity := 20, pnl := some 0
                         reason := "New position (SIM)" }] },
         { symbol := "AAA", entry_price := 50, quantity := 20
           position_size := 1000, order_id := none, real_trade := false }) := by
    norm_num [open_position, pyInt, emptyState]
    rfl
  have h := claim_C3_amended BrokerCall.exn none "AAA" 1000 50 emptyState _ _ hopen
  exact ⟨hopen, by have := h.2.2.2 (by norm_num [pyInt]); norm_num⟩

/-- Helper: a simulated open (real trading disabled) with a positive
computed quantity succeeds, entering at the quoted price. -/
theorem open_position_sim_eq
    (bk : BrokerCall) (wf : Option Order) (symbol : String)
    (target price : ℚ) (s : EngineState)
    (hq : ¬ pyInt (target / price) ≤ 0) :
    open_position false bk wf symbol target price s =
      Except.ok
        ({ currentPosition := some
             { symbol := symbol, entry_price := price
               quantity := pyInt (target / price), position_size := target
               order_id := none, real_trade := false }
           balance := s.balance
           history := s.history ++
             [{ stock := symbol, action := "Short Open", price := price
                quantity := pyInt (target / price), pnl := some 0
                reason := "New position (SIM)" }] },
         { symbol := symbol, entry_price := price
           quantity := pyInt (target / price), position_size := target
           order_id := none, real_trade := false }) := by
  simp [open_position, hq]

/-- Helper: a real-mode open whose brokerage call raises succeeds with
a simulated fill at the quoted price and no order info. -/
theorem open_position_real_exn_eq
    (wf : Option Order) (symbol : String) (target price : ℚ) (s : EngineState)
    (hq : ¬ pyInt (target / price) ≤ 0) :
    open_position true BrokerCall.exn wf symbol target price s =
      Except.ok
        ({ currentPosition := some
             { symbol := symbol, entry_price := price
               quantity := pyInt (target / price), position_size := target
               order_id := none, real_trade := false }
           balance := s.balance
           history := s.history ++
             [{ stock := symbol, action := "Short Open", price := price
                quantity := pyInt (target / price), pnl := some 0
                reason := "New position (SIM)" }] },
         { symbol := symbol, entry_price := price
           quantity := pyInt (target / price), position_size := target
           order_id := none, real_trade := false }) := by
  simp [open_position, hq]

/-- Helper: a real-mode open whose order comes back in a terminal
non-fill status keeps the quoted price. -/
theorem open_position_real_terminal_eq
    (ord : Order) (wf : Option Order) (symbol : String)
    (target price : ℚ) (s : EngineState)
    (hq : ¬ pyInt (target / price) ≤ 0)
    (hnf : ord.status ≠ "filled") (hnp : isPendingStatus ord.status = false) :
    open_position true (BrokerCall.ret (some ord)) wf symbol target price s =
      Except.ok
        ({ currentPosition := some
             { symbol := symbol, entry_price := price
               quantity := pyInt (target / price), position_size := target
               order_id := ord.id, real_trade := true }
           balance := s.balance
           history := s.history ++
             [{ stock := symbol, action := "Short Open", price := price
                quantity := pyInt (target / price), pnl := some 0
                reason := "New position (REAL)" }] },
         { symbol := symbol, entry_price := price
           quantity := pyInt (target / price), position_size := target
           order_id := ord.id, real_trade := true }) := by
  simp [open_position, hq, hnf, hnp]

/-- Helper: a real-mode open whose order stays pending and whose fill
wait times out (`None`) or ends unfilled keeps the quoted price. -/
theorem open_position_real_pending_unfilled_eq
    (ord : Order) (wf : Option Order) (symbol : String)
    (target price : ℚ) (s : EngineState)
    (hq : ¬ pyInt (target / price) ≤ 0)
    (hp : isPendingStatus ord.status = true)
    (hw : ∀ f, wf = some f → f.status ≠ "filled") :
    open_position true (BrokerCall.ret (some ord)) wf symbol target price s =
      Except.ok
        ({ currentPosition := some
             { symbol := symbol, entry_price := price
               quantity := pyInt (target / price), position_size := target
               order_id := ord.id, real_trade := true }
           balance := s.balance
           history := s.history ++
             [{ stock := symbol, action := "Short Open", price := price
                quantity := pyInt (target / price), pnl := some 0
                reason := "New position (REAL)" }] },
         { symbol := symbol, entry_price := price
           quantity := pyInt (target / price), position_size := target
           order_id := ord.id, real_trade := true }) := by
  have hnf : ¬ ord.status = "filled" := by
    intro hcontra
    rw [isPendingStatus, hcontra] at hp
    simp at hp
  cases wf with
  | none => simp [open_position, hq, hnf, hp]
  | some f =>
    have hfs : ¬ f.status = "filled" := hw f rfl
    simp [open_position, hq, hnf, hp, hfs]

/-- Claim C5: in real-trading mode, a failing brokerage open call
(raised exception, terminal non-fill such as a rejection, or a fill
wait that times out or ends unfilled) never makes `open_position`
fail: the open succeeds with a simulated fill at the quoted current
price, the position is persisted, one Open transaction at that price
is appended, and the state machine moves FLAT → SHORT. -/
theorem claim_C5_broker_failure_fallback
    (bk : BrokerCall) (wf : Option Order) (symbol : String)
    (target price : ℚ) (s : EngineState)
    (hq : 0 < pyInt (target / price)) (hf : brokerFailure bk wf) :
    ∃ s' pos, open_position true bk wf symbol target price s = Except.ok (s', pos)
      ∧ pos.entry_price = price
      ∧ s'.currentPosition = some pos
      ∧ s'.balance = s.balance
      ∧ ∃ tx, s'.history = s.history ++ [tx]
          ∧ tx.action = "Short Open" ∧ tx.price = price := by
  have hq' : ¬ pyInt (target / price) ≤ 0 := not_le.mpr hq
  rcases hf with hexn | ⟨ord, hret, hnf, hnp⟩ | ⟨ord, hret, hp, hw⟩
  · subst hexn
    exact ⟨_, _, open_position_real_exn_eq wf symbol target price s hq',
      rfl, rfl, rfl, _, rfl, rfl, rfl⟩
  · subst hret
    exact ⟨_, _, open_position_real_terminal_eq ord wf symbol target price s hq' hnf hnp,
      rfl, rfl, rfl, _, rfl, rfl, rfl⟩
  · subst hret
    exact ⟨_, _, open_position_real_pending_unfilled_eq ord wf symbol target price s hq' hp hw,
      rfl, rfl, rfl, _, rfl, rfl, rfl⟩

/-- Witness for C5 at a concrete failing call: an exception from the
brokerage while opening 1000 at price 50 still opens the position at
entry price 50. -/
theorem claim_C5_broker_failure_fallback_witness :
    (0 : ℤ) < pyInt ((1000 : ℚ) / 50) ∧ brokerFailure BrokerCall.exn none ∧
    (∃ s' pos, open_position true BrokerCall.exn none "XYZ" 1000 50 emptyState =
        Except.ok (s', pos)
      ∧ pos.entry_price = 50
      ∧ s'.currentPosition = some pos
      ∧ s'.balance = emptyState.balance
      ∧ ∃ tx, s'.history = emptyState.history ++ [tx]
          ∧ tx.action = "Short Open" ∧ tx.price = 50) := by
  refine ⟨by norm_num [pyInt], Or.inl rfl, ?_⟩
  exact claim_C5_broker_failure_fallback BrokerCall.exn none "XYZ" 1000 50 emptyState
    (by norm_num [pyInt]) (Or.inl rfl)

/-- Claim C6, at the failing input: closing a real position with the
price argument omitted while the brokerage close order comes back in
the terminal non-fill status "canceled" never consults the market-data
collaborator — the close price stays Python `None` and the P/L
arithmetic raises a TypeError — whereas the simulated path with the
same omitted price does use the fetched price (here 42) and succeeds.
The claim (and the method's own docstring, trading_engine.py line 139)
requires the price to be fetched in every such path. -/
theorem claim_C6_terminal_nonfill_skips_fetch :
    (close_position true
        (BrokerCall.ret (some { status := "canceled", filled_avg_price := none, id := some 7 }))
        none 42 realPosEntry50 "Take profit" none stateWithRealPos =
      Except.error "TypeError: unsupported operand type for None")
    ∧ (close_position false BrokerCall.exn none 42 realPosEntry50 "Take profit" none
        stateWithRealPos =
      Except.ok
        ({ currentPosition := none, balance := 10160
           history := [{ stock := "BHP", action := "Short Close", price := 42
                         quantity := 20, pnl := some 160
                         reason := "Take profit (SIM)" }] }, 160)) := by
  constructor
  · norm_num [close_position, realPosEntry50, isPendingStatus]
  · norm_num [close_position, realPosEntry50, stateWithRealPos]
    rfl

/-- Helper: a close of a position not backed by a real trade follows
the simulated path: the given price is used, P/L = (entry − price) ×
quantity is added to the balance, one Close transaction is appended,
the position is cleared. -/
theorem close_position_sim_eq
    (re : Bool) (bk : BrokerCall) (wf : Option Order) (fetch : ℚ)
    (position : Position) (reason : String) (p : ℚ) (s : EngineState)
    (hsim : position.real_trade = false) :
    close_position re bk wf fetch position reason (some p) s =
      Except.ok
        ({ currentPosition := none
           balance := s.balance + (position.entry_price - p) * (position.quantity : ℚ)
           history := s.history ++
             [{ stock := position.symbol, action := "Short Close", price := p
                quantity := position.quantity
                pnl := some ((position.entry_price - p) * (position.quantity : ℚ))
                reason := reason ++ " (SIM)" }] },
         (position.entry_price - p) * (position.quantity : ℚ)) := by
  simp [close_position, hsim]

/-- Counterexample to claim C9 as stated: the Open transaction of a
concrete successful open carries realized P/L 0 — a present value in
the nullable P/L column — not null. -/
theorem claim_C9_counterexample :
    ∃ s' pos, open_position false BrokerCall.exn none "AAA" 1000 50 emptyState =
        Except.ok (s', pos)
      ∧ ∃ tx, s'.history = [tx] ∧ tx.action = "Short Open"
          ∧ tx.pnl = some 0 ∧ tx.pnl ≠ none := by
  have hq : ¬ pyInt ((1000 : ℚ) / 50) ≤ 0 := by norm_num [pyInt]
  exact ⟨_, _, open_position_sim_eq BrokerCall.exn none "AAA" 1000 50 emptyState hq,
    { stock := "AAA", action := "Short Open", price := 50
      quantity := pyInt ((1000 : ℚ) / 50), pnl := some 0
      reason := "New position (SIM)" },
    by simp [emptyState], rfl, rfl, by simp⟩

/-- Claim C9 as amended: every transaction appended by an open carries
realized P/L 0 (a recorded value, not null), and every transaction
appended by a simulated close with a given close price carries
realized P/L (entry_price − close_price) × quantity; the computed-P/L
form appears only on Close transactions. -/
theorem claim_C9_amended :
    (∀ (re : Bool) (bk : BrokerCall) (wf : Option Order) (symbol : String)
        (target price : ℚ) (s s' : EngineState) (pos : Position),
      open_position re bk wf symbol target price s = Except.ok (s', pos) →
      ∃ tx, s'.history = s.history ++ [tx]
        ∧ tx.action = "Short Open" ∧ tx.pnl = some 0)
    ∧ (∀ (re : Bool) (bk : BrokerCall) (wf : Option Order) (fetch : ℚ)
        (position : Position) (reason : String) (cp : ℚ) (s s' : EngineState) (pnl : ℚ),
      position.real_trade = false →
      close_position re bk wf fetch position reason (some cp) s = Except.ok (s', pnl) →
      ∃ tx, s'.history = s.history ++ [tx]
        ∧ tx.action = "Short Close"
        ∧ tx.pnl = some ((position.entry_price - cp) * (position.quantity : ℚ))) := by
  constructor
  · intro re bk wf symbol target price s s' pos h
    simp only [open_position] at h
    split at h
    · exact absurd h (by simp)
    · rw [Except.ok.injEq, Prod.mk.injEq] at h
      obtain ⟨hs, -⟩ := h
      subst hs
      exact ⟨_, rfl, rfl, rfl⟩
  · intro re bk wf fetch position reason cp s s' pnl hsim h
    rw [close_position_sim_eq re bk wf fetch position reason cp s hsim] at h
    rw [Except.ok.injEq, Prod.mk.injEq] at h
    obtain ⟨hs, -⟩ := h
    subst hs
    exact ⟨_, rfl, rfl, rfl⟩

/-- Witness for C9 as amended, at a concrete open and a concrete
simulated close (entry 50, quantity 20, close price 45, P/L 100). -/
theorem claim_C9_amended_witness :
    (∀ s' pos,
      open_position false BrokerCall.exn none "AAA" 1000 50 emptyState =
        Except.ok (s', pos) →
      ∃ tx, s'.history = emptyState.history ++ [tx]
        ∧ tx.action = "Short Open" ∧ tx.pnl = some 0)
    ∧ (∀ s' pnl,
      close_position false BrokerCall.exn none 0 posEntry50 "Take profit" (some 45)
          stateWithPos = Except.ok (s', pnl) →
      ∃ tx, s'.history = stateWithPos.history ++ [tx]
        ∧ tx.action = "Short Close"
        ∧ tx.pnl = some ((posEntry50.entry_price - 45) * (posEntry50.quantity : ℚ))) := by
  constructor
  · intro s' pos h
    exact claim_C9_amended.1 false BrokerCall.exn none "AAA" 1000 50 emptyState s' pos h
  · intro s' pnl h
    exact claim_C9_amended.2 false BrokerCall.exn none 0 posEntry50 "Take profit" 45
      stateWithPos s' pnl rfl h

/-- Claim C10: with a positive entry price and strictly positive
take-profit and stop-loss percentages, the take-profit condition
(price ≤ entry × (1 − tp/100)) and the stop-loss condition
(price ≥ entry × (1 + sl/100)) cannot hold together, and consequently
the exit block of a tick — two independent `if` statements followed by
the rotation `elif` that re-reads the cleared session position —
invokes `close_position` at most once, never on an already-cleared
position. -/
theorem claim_C10_exit_checks_exclusive
    (position : Position) (current_price tp sl tsc ci : ℚ)
    (he : 0 < position.entry_price) (htp : 0 < tp) (hsl : 0 < sl) :
    ¬(current_price ≤ position.entry_price * (1 - tp / 100)
        ∧ position.entry_price * (1 + sl / 100) ≤ current_price)
    ∧ (positionTickCloses position current_price tp sl tsc ci).length ≤ 1 := by
  have hlt : position.entry_price * (1 - tp / 100)
      < position.entry_price * (1 + sl / 100) := by
    have : (1 : ℚ) - tp / 100 < 1 + sl / 100 := by linarith
    exact mul_lt_mul_of_pos_left this he
  have hexcl : ¬(current_price ≤ position.entry_price * (1 - tp / 100)
      ∧ position.entry_price * (1 + sl / 100) ≤ current_price) := by
    rintro ⟨h1, h2⟩
    linarith
  refine ⟨hexcl, ?_⟩
  by_cases h1 : current_price ≤ position.entry_price * (1 - tp / 100)
  · have h2 : ¬ position.entry_price * (1 + sl / 100) ≤ current_price :=
      fun h2 => hexcl ⟨h1, h2⟩
    simp [positionTickCloses, h1, h2]
  · by_cases h2 : position.entry_price * (1 + sl / 100) ≤ current_price
    · simp [positionTickCloses, h1, h2]
    · by_cases h3 : ci ≤ tsc
      · simp [positionTickCloses, h1, h2, h3]
      · simp [positionTickCloses, h1, h2, h3]

/-- Witness for C10 at a concrete tick: entry 50, take-profit 2%,
stop-loss 1%, price 49.75, cycle not due. -/
theorem claim_C10_exit_checks_exclusive_witness :
    (0 : ℚ) < posEntry50.entry_price ∧ (0 : ℚ) < 2 ∧ (0 : ℚ) < 1 ∧
    (¬((199 : ℚ) / 4 ≤ posEntry50.entry_price * (1 - 2 / 100)
        ∧ posEntry50.entry_price * (1 + 1 / 100) ≤ 199 / 4)
      ∧ (positionTickCloses posEntry50 (199 / 4) 2 1 0 3600).length ≤ 1) := by
  refine ⟨by norm_num [posEntry50], by norm_num, by norm_num, ?_⟩
  exact claim_C10_exit_checks_exclusive posEntry50 (199 / 4) 2 1 0 3600
    (by norm_num [posEntry50]) (by norm_num) (by norm_num)

/-- Claim C2, at the failing input: a tick inside trading hours with no
open position and a non-empty watchlist opens a position even though
no time at all (0 s < 3600 s) has elapsed since the last cycle — the
branch guard `time_since_cycle >= cycle_interval or not
current_position` is vacuously true whenever the position is empty, so
the cycle-interval gate never actually gates, contradicting the claim
(and the code's own comment "If no open position and it's time for a
new cycle" at app.py line 1313). -/
theorem claim_C2_cycle_gate_vacuous :
    (0 : ℚ) < 3600 ∧
    (flatTick false BrokerCall.exn none recosShort65 priceAlways10 10 0 3600
        [{ symbol := "AAA", last_price := 10 }] flatState10000).currentPosition =
      some { symbol := "AAA", entry_price := 10, quantity := 100
             position_size := 1000, order_id := none, real_trade := false } := by
  constructor
  · norm_num
  · norm_num [flatTick, selectBestStock, recosShort65, priceAlways10, flatState10000,
      open_position, pyInt]

/-- Claim C7: for every bar sequence the shorting score is an integer
(the embedding's return type is ℤ, as the Python value is an int built
from integer literals) between 0 and 100; empty data — the one
representable failure mode, which the code also uses as the fallback of
its exception handler — yields score 0 without raising. -/
theorem claim_C7_score_clamped :
    (∀ bars : List Bar, 0 ≤ get_shorting_score bars ∧ get_shorting_score bars ≤ 100)
    ∧ get_shorting_score [] = 0 := by
  constructor
  · intro bars
    unfold get_shorting_score
    split
    · exact ⟨le_refl 0, by norm_num⟩
    · constructor
      · exact le_max_left 0 _
      · exact max_le (by norm_num) (min_le_left 100 _)
  · rfl

/-- Close prices of a 50-bar counterexample series for claim C8:
a long 120 stretch, a brief 200 spike, a crash to 100, then fourteen
+1 steps up to 114.  The latest close 114 lies below both SMA20
(521/4 = 130.25) and SMA50 (1241/10 = 124.1), the last fourteen price
changes are all gains so RSI = 100 > 70, yet SMA20 > SMA50, so the
death-cross +15 is not awarded. -/
def cexClosesC8 : List ℚ := [120, 120, 120, 120, 120, 120, 120, 120, 120, 120, 120, 120, 120, 120, 120, 120, 120, 120, 120, 120, 120, 120, 120, 120, 120, 120, 120, 120, 120, 120, 200, 200, 200, 200, 200, 100, 101, 102, 103, 104, 105, 106, 107, 108, 109, 110, 111, 112, 113, 114]

/-- The counterexample bars for claim C8 (constant volume 1000). -/
def cexBarsC8 : List Bar := cexClosesC8.map (fun c => { close := c, volume := 1000 })

/-- Close prices of a 50-bar witness series for the amended claim C8:
latest close 94 below SMA20 = 411/4, SMA20 below SMA50 = 1611/10, and
fourteen consecutive gains giving RSI = 100. -/
def witClosesC8 : List ℚ := [200, 200, 200, 200, 200, 200, 200, 200, 200, 200, 200, 200, 200, 200, 200, 200, 200, 200, 200, 200, 200, 200, 200, 200, 200, 200, 200, 200, 200, 200, 150, 150, 150, 150, 150, 80, 81, 82, 83, 84, 85, 86, 87, 88, 89, 90, 91, 92, 93, 94]

/-- The witness bars for the amended claim C8 (constant volume 1000). -/
def witBarsC8 : List Bar := witClosesC8.map (fun c => { close := c, volume := 1000 })

/-- Counterexample to claim C8 as stated: on `cexBarsC8` the latest
Close (114) is below both the 20-period SMA (130.25) and the 50-period
SMA (124.1) and the RSI (100) exceeds 70, yet the score is 75 < 90 —
the code's +15 trend bonus requires SMA20 < SMA50 (the death cross),
not Close < SMA50. -/
theorem claim_C8_counterexample :
    specC8Premise cexBarsC8 ∧ get_shorting_score cexBarsC8 < 90 := by
  constructor
  · refine ⟨521 / 4, 1241 / 10, 100, ?_, ?_, ?_, ?_, ?_, ?_⟩
    · norm_num [smaLatest, closesOf, cexBarsC8, cexClosesC8, lastN]
    · norm_num [smaLatest, closesOf, cexBarsC8, cexClosesC8, lastN]
    · norm_num [rsiLatest, closesOf, cexBarsC8, cexClosesC8, lastN, gainSeries,
        lossSeries, diffs]
    · norm_num [latestOf, closesOf, cexBarsC8, cexClosesC8]
    · norm_num [latestOf, closesOf, cexBarsC8, cexClosesC8]
    · norm_num
  · norm_num [get_shorting_score, closesOf, volumesOf, cexBarsC8, cexClosesC8,
      smaLatest, lastN, latestOf, optLT, rsiLatest, gainSeries, lossSeries, diffs,
      rsiAdjustment, volatilityHigh, volumeSpike, recentGain, pctChanges, sqDevs]
    rw [if_neg (List.cons_ne_nil _ _)]
    norm_num

/-- Claim C8 as amended: for every bar sequence whose latest Close is
below the 20-period SMA, whose 20-period SMA is below the 50-period
SMA (the condition the code's +15 trend bonus actually tests, in place
of Close < SMA50), and whose 14-period RSI exceeds 70, the shorting
score is at least 90 = 50 + 10 + 15 + 15; the volatility, volume and
recent-gain adjustments only add, and the upper clamp keeps the score
at 100 at most, never below 90. -/
theorem claim_C8_amended (bars : List Bar) (s20 s50 r : ℚ)
    (h20 : smaLatest 20 (closesOf bars) = some s20)
    (h50 : smaLatest 50 (closesOf bars) = some s50)
    (hr : rsiLatest (closesOf bars) = some r)
    (hclose : latestOf (closesOf bars) < s20)
    (hcross : s20 < s50)
    (hr70 : 70 < r) :
    90 ≤ get_shorting_score bars := by
  have hne : bars ≠ [] := by
    intro h
    subst h
    simp [smaLatest, closesOf, lastN] at h20
  have h1 : optLT (some (latestOf (closesOf bars))) (smaLatest 20 (closesOf bars)) := by
    rw [h20]
    exact hclose
  have h2 : optLT (smaLatest 20 (closesOf bars)) (smaLatest 50 (closesOf bars)) := by
    rw [h20, h50]
    exact hcross
  have h3 : rsiAdjustment (rsiLatest (closesOf bars)) = 15 := by
    rw [hr]
    simp [rsiAdjustment, hr70]
  simp only [get_shorting_score]
  rw [if_neg hne, if_pos h1, if_pos h2, h3]
  have ha : (0 : ℤ) ≤ if 5 ≤ bars.length ∧ volatilityHigh (closesOf bars) then 5 else 0 := by
    split <;> norm_num
  have hb : (0 : ℤ) ≤ if 5 ≤ bars.length ∧ volumeSpike (volumesOf bars) then 5 else 0 := by
    split <;> norm_num
  have hc : (0 : ℤ) ≤ if 3 ≤ bars.length ∧ recentGain (closesOf bars) then 10 else 0 := by
    split <;> norm_num
  refine le_trans (le_min (by norm_num) (by linarith)) (le_max_right _ _)

/-- Witness for C8 as amended at `witBarsC8`: latest Close 94 below
SMA20 = 411/4, SMA20 below SMA50 = 1611/10, RSI = 100 > 70, and the
score is at least 90. -/
theorem claim_C8_amended_witness : 90 ≤ get_shorting_score witBarsC8 := by
  refine claim_C8_amended witBarsC8 (411 / 4) (1611 / 10) 100 ?_ ?_ ?_ ?_ ?_ ?_
  · norm_num [smaLatest, closesOf, witBarsC8, witClosesC8, lastN]
  · norm_num [smaLatest, closesOf, witBarsC8, witClosesC8, lastN]
  · norm_num [rsiLatest, closesOf, witBarsC8, witClosesC8, lastN, gainSeries,
      lossSeries, diffs]
  · norm_num [latestOf, closesOf, witBarsC8, witClosesC8]
  · norm_num
  · norm_num
